import Mathlib

/-!
# Verification of the emergency-services backend against its specification

Shallow embedding of the hackathoon-911-backend controllers (TypeScript/Express
with a Prisma relational store) and proofs of the specification claims about
them.  Each definition mirrors one function of the source; the database is
modelled as an explicit list of rows that handlers thread through.  String
handling is embedded at the character-list level so that all definitions
evaluate inside the kernel.
-/

namespace Hack911

/-! ## JavaScript string primitives used by the source -/

/-- JavaScript String.prototype.trim: drop whitespace from both ends. -/
def jsTrim (cs : List Char) : List Char :=
  ((cs.dropWhile Char.isWhitespace).reverse.dropWhile Char.isWhitespace).reverse

/-- Uppercase a single character (JavaScript toUpperCase, ASCII letters). -/
def jsCharUpper (c : Char) : Char :=
  if c.isLower then c.toUpper else c

/-- JavaScript String.prototype.split with a one-character separator. -/
def splitOnChar (sep : Char) : List Char → List (List Char)
  | [] => [[]]
  | c :: rest =>
    let r := splitOnChar sep rest
    if c == sep then [] :: r
    else
      match r with
      | [] => [[c]]
      | h :: t => (c :: h) :: t

/-! ## RUT validation (src/utils/validation.ts) -/

/-- A character acceptable at the RUT check position: a digit or K (either
case), mirroring the character class of the source regex. -/
def isRutCheckChar (c : Char) : Bool :=
  c.isDigit || c == 'K' || c == 'k'

/-- Embedding of validateRutFormat: the trimmed string must be 8 digits,
a hyphen, then one digit-or-K character (case-insensitive). -/
def validateRutFormat (rut : String) : Bool :=
  let cs := jsTrim rut.data
  cs.length == 10 && (cs.take 8).all (fun c => c.isDigit) &&
    ((cs.drop 8).headD ' ' == '-') && isRutCheckChar ((cs.drop 9).headD ' ')

/-- JavaScript Number(c) for a one-character string, as used by
rutNumber.split('').map(Number) in the source (digits map to their value). -/
def jsDigitValue (c : Char) : Nat :=
  c.toNat - 48

/-- The multiplier loop of validateRutWithCheckDigit: each digit is multiplied
by a cyclic weight starting at the given multiplier, which increments up to 7
and then resets to 2. -/
def rutWeightedSum : List Nat → Nat → Nat
  | [], _ => 0
  | d :: ds, m => d * m + rutWeightedSum ds (if m == 7 then 2 else m + 1)

/-- Embedding of validateRutWithCheckDigit: reject on format failure, then
split at the hyphen, reverse the 8 digits, take the weighted sum, reduce
mod 11, and compare the uppercased supplied check character against the
remainder as a digit when remainder < 2 and the letter K otherwise. -/
def validateRutWithCheckDigit (rut : String) : Bool :=
  if !validateRutFormat rut then false
  else
    let parts := splitOnChar '-' rut.data
    let rutNumber := parts.headD []
    let checkDigit := (parts.drop 1).headD []
    let digits := (rutNumber.map jsDigitValue).reverse
    let sum := rutWeightedSum digits 2
    let remainder := sum % 11
    let calculated : List Char :=
      if remainder < 2 then [Char.ofNat (48 + remainder)] else ['K']
    checkDigit.map jsCharUpper == calculated

example : validateRutFormat "19831267-3" = true := by decide

example : validateRutWithCheckDigit "19831267-3" = false := by decide

example : validateRutWithCheckDigit "19831267-4" = false := by decide

example : validateRutWithCheckDigit "19831260-K" = true := by decide

/-! ## Generic handler outcome

Handlers respond with a JSON envelope; we record the branch taken and, on
success, the returned row.  `notFound` is the single 404 outcome used both
for absent rows and for rows owned by another user. -/

inductive ApiResult (α : Type) where
  | ok (status : Nat) (data : α)
  | badRequest
  | notFound
  | conflict
  | serverError
  deriving Repr, DecidableEq

/-! ## Addresses (src/controllers/addresses.ts)

A row of the addresses table.  `created_at` is a logical timestamp supplied
by the store at insertion. -/

structure Address where
  id : String
  user_id : String
  street_address : String
  city : String
  region : String
  postal_code : Option String
  country : String
  address_type : String
  is_primary : Bool
  created_at : Nat
  deriving Repr, DecidableEq

/-- Body accepted by createAddress after zod validation (is_primary is an
optional boolean). -/
structure CreateAddressInput where
  street_address : String
  city : String
  region : String
  postal_code : Option String
  country : String
  address_type : String
  is_primary : Option Bool
  deriving Repr, DecidableEq

/-- Body accepted by updateAddress after zod validation: every field
optional; an absent field (`none`) is omitted from the update. -/
structure UpdateAddressInput where
  street_address : Option String
  city : Option String
  region : Option String
  postal_code : Option String
  country : Option String
  address_type : Option String
  is_primary : Option Bool
  deriving Repr, DecidableEq

/-- prisma.addresses.updateMany where { user_id, is_primary: true },
data { is_primary: false }. -/
def unsetUserPrimaries (uid : String) (db : List Address) : List Address :=
  db.map fun a =>
    if a.user_id == uid && a.is_primary then { a with is_primary := false } else a

/-- prisma.addresses.findFirst where { id, user_id }: the ownership filter is
part of the lookup predicate itself. -/
def findAddress (db : List Address) (uid id : String) : Option Address :=
  db.find? fun a => a.id == id && a.user_id == uid

/-- The order used by getUserAddresses: is_primary descending, then
created_at descending. -/
def addrBefore (a b : Address) : Prop :=
  if a.is_primary = b.is_primary then b.created_at ≤ a.created_at
  else a.is_primary = true

instance : DecidableRel addrBefore := fun a b => by
  unfold addrBefore; infer_instance

instance : IsTotal Address addrBefore := by
  constructor
  intro a b
  unfold addrBefore
  by_cases h : a.is_primary = b.is_primary
  · simp [h, Nat.le_total b.created_at a.created_at]
  · rcases Bool.eq_false_or_eq_true a.is_primary with ha | ha <;>
      rcases Bool.eq_false_or_eq_true b.is_primary with hb | hb <;>
      simp [ha, hb] at h ⊢

instance : IsTrans Address addrBefore := by
  constructor
  intro a b c hab hbc
  unfold addrBefore at hab hbc ⊢
  rcases Bool.eq_false_or_eq_true a.is_primary with ha | ha <;>
    rcases Bool.eq_false_or_eq_true b.is_primary with hb | hb <;>
    rcases Bool.eq_false_or_eq_true c.is_primary with hc | hc <;>
    simp [ha, hb, hc] at hab hbc ⊢ <;> omega

/-- getUserAddresses: all rows owned by the user, ordered primary-first then
newest-created-first. -/
def getUserAddresses (db : List Address) (uid : String) : List Address :=
  (db.filter fun a => a.user_id == uid).insertionSort addrBefore

/-- getAddressById: look up by id and owner together; 404 when no such row. -/
def getAddressById (db : List Address) (uid id : String) : ApiResult Address :=
  match findAddress db uid id with
  | none => .notFound
  | some a => .ok 200 a

/-- createAddress: when the new row is primary, first unset is_primary on the
caller's existing primary addresses, then insert.  The fresh id and the
insertion timestamp come from the store; a clashing id is a primary-key
violation reported as a 500 with the store unchanged. -/
def createAddress (db : List Address) (uid : String) (input : CreateAddressInput)
    (newId : String) (now : Nat) : ApiResult Address × List Address :=
  if db.any (fun a => a.id == newId) then
    (.serverError, db)
  else
    let db1 := if input.is_primary.getD false then unsetUserPrimaries uid db else db
    let row : Address :=
      { id := newId, user_id := uid, street_address := input.street_address,
        city := input.city, region := input.region,
        postal_code := input.postal_code, country := input.country,
        address_type := input.address_type,
        is_primary := input.is_primary.getD false, created_at := now }
    (.ok 201 row, db1 ++ [row])

/-- The selective update of updateAddress: only supplied fields change. -/
def applyAddressUpdate (input : UpdateAddressInput) (a : Address) : Address :=
  { a with
    street_address := input.street_address.getD a.street_address
    city := input.city.getD a.city
    region := input.region.getD a.region
    postal_code := match input.postal_code with
      | some p => some p
      | none => a.postal_code
    country := input.country.getD a.country
    address_type := input.address_type.getD a.address_type
    is_primary := input.is_primary.getD a.is_primary }

/-- updateAddress: 404 unless the row exists and is owned by the caller; when
the body sets is_primary on a row that was not primary, unset every other
primary address of the caller; then apply the supplied fields to the row
(prisma.addresses.update where { id }) and return the updated row. -/
def updateAddress (db : List Address) (uid id : String) (input : UpdateAddressInput) :
    ApiResult Address × List Address :=
  match findAddress db uid id with
  | none => (.notFound, db)
  | some ex =>
    let db1 :=
      if input.is_primary.getD false && !ex.is_primary then
        db.map fun a =>
          if a.user_id == uid && a.is_primary && !(a.id == id) then
            { a with is_primary := false }
          else a
      else db
    let db2 := db1.map fun a => if a.id == id then applyAddressUpdate input a else a
    (.ok 200 (applyAddressUpdate input ex), db2)

/-- setPrimaryAddress: 404 unless the row exists and is owned by the caller;
unset is_primary on all the caller's addresses, then set it on the chosen
row. -/
def setPrimaryAddress (db : List Address) (uid id : String) :
    ApiResult Address × List Address :=
  match findAddress db uid id with
  | none => (.notFound, db)
  | some ex =>
    let db1 := unsetUserPrimaries uid db
    let db2 := db1.map fun a => if a.id == id then { a with is_primary := true } else a
    (.ok 200 { ex with is_primary := true }, db2)

/-- A sequential execution step over the address store: one of the three
write operations of the claim (create, update, explicit set-primary). -/
inductive AddressOp where
  | createOp (uid : String) (input : CreateAddressInput) (newId : String) (now : Nat)
  | updateOp (uid : String) (id : String) (input : UpdateAddressInput)
  | setPrimaryOp (uid : String) (id : String)
  deriving Repr

/-- The store after one operation. -/
def applyAddressOp (db : List Address) : AddressOp → List Address
  | .createOp uid input newId now => (createAddress db uid input newId now).2
  | .updateOp uid id input => (updateAddress db uid id input).2
  | .setPrimaryOp uid id => (setPrimaryAddress db uid id).2

/-- The store after a sequential execution from the empty store. -/
def runAddressOps (ops : List AddressOp) : List Address :=
  ops.foldl applyAddressOp []

/-- How many addresses of the user are flagged primary. -/
def primaryCount (uid : String) (db : List Address) : Nat :=
  db.countP fun a => a.user_id == uid && a.is_primary

/-- Store well-formedness: distinct primary keys, and the primary-address
invariant for every user. -/
def addressesWF (db : List Address) : Prop :=
  (db.map Address.id).Nodup ∧ ∀ uid, primaryCount uid db ≤ 1

/-! ## Health insurance (src/controllers/healthInsurance.ts) -/

structure HealthInsurance where
  id : String
  user_id : String
  primary_provider : String
  provider_name : String
  plan_name : Option String
  member_id : String
  coverage_info : Option String
  created_at : Nat
  deriving Repr, DecidableEq

/-- Lowercase a single character (JavaScript toLowerCase, ASCII letters). -/
def jsCharLower (c : Char) : Char :=
  if c.isUpper then c.toLower else c

/-- JavaScript s.trim() on a whole string. -/
def jsTrimStr (s : String) : String :=
  ⟨jsTrim s.data⟩

/-- JavaScript s.toLowerCase().trim(), the normalisation applied to stored
and candidate validation answers. -/
def jsLowerTrim (s : String) : String :=
  ⟨jsTrim (s.data.map jsCharLower)⟩

/-- The body of updateHealthInsurance: fields destructured from the request.
`none` is an omitted field.  plan_name and coverage_info distinguish an
explicit null (`some none`) from a supplied string; the other three are
JavaScript-truthiness guarded. -/
structure UpdateHIInput where
  primary_provider : Option String
  provider_name : Option String
  plan_name : Option (Option String)
  member_id : Option String
  coverage_info : Option (Option String)
  deriving Repr, DecidableEq

/-- The order of getHealthInsurance: created_at descending. -/
def hiNewestFirst (a b : HealthInsurance) : Prop :=
  b.created_at ≤ a.created_at

instance : DecidableRel hiNewestFirst := fun a b => by
  unfold hiNewestFirst; infer_instance

instance : IsTotal HealthInsurance hiNewestFirst :=
  ⟨fun a b => Nat.le_total b.created_at a.created_at⟩

instance : IsTrans HealthInsurance hiNewestFirst :=
  ⟨fun _ _ _ hab hbc => Nat.le_trans hbc hab⟩

/-- getHealthInsurance: findMany where { user_id }, orderBy created_at desc.
Always a list; empty when the user owns no rows. -/
def getHealthInsurance (db : List HealthInsurance) (uid : String) : List HealthInsurance :=
  (db.filter fun h => h.user_id == uid).insertionSort hiNewestFirst

/-- getHealthInsuranceById: findFirst where { id, user_id }; 404 otherwise. -/
def getHealthInsuranceById (db : List HealthInsurance) (uid id : String) :
    ApiResult HealthInsurance :=
  match db.find? (fun h => h.id == id && h.user_id == uid) with
  | none => .notFound
  | some h => .ok 200 h

/-- The selective update of updateHealthInsurance: primary_provider,
provider_name and member_id are written only when truthy (provider_name and
member_id trimmed); plan_name and coverage_info are written whenever they are
not undefined, a falsy value becoming null. -/
def applyHIUpdate (input : UpdateHIInput) (h : HealthInsurance) : HealthInsurance :=
  { h with
    primary_provider := match input.primary_provider with
      | some s => if s == "" then h.primary_provider else s
      | none => h.primary_provider
    provider_name := match input.provider_name with
      | some s => if s == "" then h.provider_name else jsTrimStr s
      | none => h.provider_name
    plan_name := match input.plan_name with
      | some (some s) => if s == "" then none else some (jsTrimStr s)
      | some none => none
      | none => h.plan_name
    member_id := match input.member_id with
      | some s => if s == "" then h.member_id else jsTrimStr s
      | none => h.member_id
    coverage_info := match input.coverage_info with
      | some (some s) => if s == "" then none else some (jsTrimStr s)
      | some none => none
      | none => h.coverage_info }

/-- updateHealthInsurance: 404 unless the row exists and is owned by the
caller; apply the supplied fields (prisma.health_insurance.update where
{ id }) and return the updated row. -/
def updateHealthInsurance (db : List HealthInsurance) (uid id : String)
    (input : UpdateHIInput) : ApiResult HealthInsurance × List HealthInsurance :=
  match db.find? (fun h => h.id == id && h.user_id == uid) with
  | none => (.notFound, db)
  | some ex =>
    (.ok 200 (applyHIUpdate input ex),
      db.map fun h => if h.id == id then applyHIUpdate input h else h)

/-! ## Validation questions (src/controllers/validationQuestions.ts)

The bcrypt hash and its comparison primitive are an external library; the
handlers are parameterised by them.  The contract assumed of them where a
claim needs it is stated as an explicit hypothesis. -/

structure ValidationQuestion where
  id : String
  user_id : String
  question : String
  answer_hash : String
  created_at : Nat
  deriving Repr, DecidableEq

/-- A row as serialised by the list endpoint: user_id and answer_hash are
present only under service-key (api-key header) authentication. -/
structure VQView where
  id : String
  user_id : Option String
  question : String
  answer_hash : Option String
  created_at : Nat
  deriving Repr, DecidableEq

/-- apiKey && retellApiKey && apiKey === retellApiKey: both the header and the
configured key must be present and truthy (non-empty) and equal. -/
def isApiKeyAuth (apiKey cfgKey : Option String) : Bool :=
  match apiKey, cfgKey with
  | some a, some c => !(a == "") && !(c == "") && a == c
  | _, _ => false

/-- The field selection of the list endpoint: the full row under service-key
authentication, otherwise only id, question and timestamps. -/
def projectVQ (full : Bool) (q : ValidationQuestion) : VQView :=
  if full then
    { id := q.id, user_id := some q.user_id, question := q.question,
      answer_hash := some q.answer_hash, created_at := q.created_at }
  else
    { id := q.id, user_id := none, question := q.question,
      answer_hash := none, created_at := q.created_at }

/-- The order of getUserValidationQuestions: created_at ascending. -/
def vqOldestFirst (a b : ValidationQuestion) : Prop :=
  a.created_at ≤ b.created_at

instance : DecidableRel vqOldestFirst := fun a b => by
  unfold vqOldestFirst; infer_instance

instance : IsTotal ValidationQuestion vqOldestFirst :=
  ⟨fun a b => Nat.le_total a.created_at b.created_at⟩

instance : IsTrans ValidationQuestion vqOldestFirst :=
  ⟨fun _ _ _ hab hbc => Nat.le_trans hab hbc⟩

/-- getUserValidationQuestions: 404 when the path user does not exist;
otherwise the user's questions ordered created_at ascending, projected
according to the api-key check. -/
def getUserValidationQuestions (users : List String) (db : List ValidationQuestion)
    (userId : String) (apiKey cfgKey : Option String) : ApiResult (List VQView) :=
  if !(users.contains userId) then .notFound
  else
    let full := isApiKeyAuth apiKey cfgKey
    let qs := (db.filter fun q => q.user_id == userId).insertionSort vqOldestFirst
    .ok 200 (qs.map (projectVQ full))

/-- createValidationQuestion: zod requires non-empty question and answer; 404
when the path user does not exist; the answer is stored only as
hash(answer.toLowerCase().trim()); the response row omits the hash. -/
def createValidationQuestion (hash : String → String) (users : List String)
    (db : List ValidationQuestion) (userId : String) (question answer : String)
    (newId : String) (now : Nat) : ApiResult VQView × List ValidationQuestion :=
  if question == "" || answer == "" then (.badRequest, db)
  else if !(users.contains userId) then (.notFound, db)
  else
    let row : ValidationQuestion :=
      { id := newId, user_id := userId, question := question,
        answer_hash := hash (jsLowerTrim answer), created_at := now }
    (.ok 201 (projectVQ false row), db ++ [row])

/-- The outcome of the verify endpoint: the response carries only the
verified flag and a fixed message. -/
inductive VerifyResult where
  | badRequest
  | notFound
  | ok (verified : Bool) (message : String)
  deriving Repr, DecidableEq

/-- verifyValidationAnswer: zod requires a non-empty answer; findUnique by
question id with no ownership filter; compare the normalised candidate to the
stored hash with the library comparison primitive. -/
def verifyValidationAnswer (bcompare : String → String → Bool)
    (db : List ValidationQuestion) (questionId answer : String) : VerifyResult :=
  if answer == "" then .badRequest
  else
    match db.find? (fun q => q.id == questionId) with
    | none => .notFound
    | some q =>
      let isCorrect := bcompare (jsLowerTrim answer) q.answer_hash
      .ok isCorrect (if isCorrect then "Answer is correct" else "Answer is incorrect")

/-! ## Emergency events (src/controllers/emergencyEvents.ts) -/

structure EmergencyEvent where
  id : String
  user_id : String
  event_type : String
  description : String
  location : String
  audio_recording_url : Option String
  status : String
  created_at : Nat
  deriving Repr, DecidableEq

/-- Body of createEmergencyEvent (the three required strings, absent modelled
as empty, and the optional recording URL). -/
structure CreateEventInput where
  event_type : String
  description : String
  location : String
  audio_recording_url : Option String
  deriving Repr, DecidableEq

/-- Body of updateEmergencyEvent: `none` is an omitted field.  The first
three and status are spread through a JavaScript truthiness guard;
audio_recording_url is written whenever it is not undefined, with
`some none` an explicit null. -/
structure UpdateEventInput where
  event_type : Option String
  description : Option String
  location : Option String
  audio_recording_url : Option (Option String)
  status : Option String
  deriving Repr, DecidableEq

/-- The spread `...(field && { field })`: the field is written only when the
supplied value is truthy. -/
def jsTruthySet (v : Option String) (old : String) : String :=
  match v with
  | some s => if s == "" then old else s
  | none => old

/-- createEmergencyEvent (after the authentication branch has resolved the
target user): 400 when a required field is falsy or the target user does not
exist; otherwise insert with status 'active'. -/
def createEmergencyEvent (users : List String) (db : List EmergencyEvent)
    (targetUserId : String) (input : CreateEventInput) (newId : String) (now : Nat) :
    ApiResult EmergencyEvent × List EmergencyEvent :=
  if input.event_type == "" || input.description == "" || input.location == "" then
    (.badRequest, db)
  else if !(users.contains targetUserId) then (.badRequest, db)
  else
    let row : EmergencyEvent :=
      { id := newId, user_id := targetUserId, event_type := input.event_type,
        description := input.description, location := input.location,
        audio_recording_url := match input.audio_recording_url with
          | some s => if s == "" then none else some s
          | none => none
        status := "active", created_at := now }
    (.ok 201 row, db ++ [row])

/-- The selective update of updateEmergencyEvent.  No validation constrains
the supplied status: any truthy string is written. -/
def applyEventUpdate (input : UpdateEventInput) (e : EmergencyEvent) : EmergencyEvent :=
  { e with
    event_type := jsTruthySet input.event_type e.event_type
    description := jsTruthySet input.description e.description
    location := jsTruthySet input.location e.location
    audio_recording_url := match input.audio_recording_url with
      | some v => v
      | none => e.audio_recording_url
    status := jsTruthySet input.status e.status }

/-- updateEmergencyEvent: 404 unless the event exists and is owned by the
caller; apply the supplied fields and return the updated row. -/
def updateEmergencyEvent (db : List EmergencyEvent) (uid id : String)
    (input : UpdateEventInput) : ApiResult EmergencyEvent × List EmergencyEvent :=
  match db.find? (fun e => e.id == id && e.user_id == uid) with
  | none => (.notFound, db)
  | some ex =>
    (.ok 200 (applyEventUpdate input ex),
      db.map fun e => if e.id == id then applyEventUpdate input e else e)

/-! ## Medical info (src/controllers/medicalInfo.ts): singleton per user -/

structure MedicalInfo where
  user_id : String
  medical_conditions : List String
  allergies : List String
  medications : List String
  blood_type : Option String
  emergency_notes : Option String
  voice_password_hash : Option String
  deriving Repr, DecidableEq

/-- Body of create/upsert medical info: array fields absent or non-array
become empty; scalar fields are truthiness-guarded into null. -/
structure MedicalInfoInput where
  medical_conditions : Option (List String)
  allergies : Option (List String)
  medications : Option (List String)
  blood_type : Option String
  emergency_notes : Option String
  voice_password_hash : Option String
  deriving Repr, DecidableEq

/-- Array.isArray(x) ? x.filter(v => v && v.trim()) : [] -/
def processStrArray (o : Option (List String)) : List String :=
  match o with
  | some l => l.filter fun s => !(s == "") && !(jsTrimStr s == "")
  | none => []

/-- x ? x.trim() : null -/
def truthyTrimOrNull (o : Option String) : Option String :=
  match o with
  | some s => if s == "" then none else some (jsTrimStr s)
  | none => none

/-- The row written by both createMedicalInfo and upsertMedicalInfo for a
given body. -/
def mkMedicalRow (uid : String) (input : MedicalInfoInput) : MedicalInfo :=
  { user_id := uid
    medical_conditions := processStrArray input.medical_conditions
    allergies := processStrArray input.allergies
    medications := processStrArray input.medications
    blood_type := truthyTrimOrNull input.blood_type
    emergency_notes := truthyTrimOrNull input.emergency_notes
    voice_password_hash := truthyTrimOrNull input.voice_password_hash }

/-- createMedicalInfo: 409 when a row already exists for the user (singleton
per user), otherwise insert and 201. -/
def createMedicalInfo (db : List MedicalInfo) (uid : String) (input : MedicalInfoInput) :
    ApiResult MedicalInfo × List MedicalInfo :=
  match db.find? (fun m => m.user_id == uid) with
  | some _ => (.conflict, db)
  | none =>
    let row := mkMedicalRow uid input
    (.ok 201 row, db ++ [row])

/-- upsertMedicalInfo: prisma.medical_info.upsert on the unique user_id key;
create and update write the same values; responds 200 in both cases. -/
def upsertMedicalInfo (db : List MedicalInfo) (uid : String) (input : MedicalInfoInput) :
    ApiResult MedicalInfo × List MedicalInfo :=
  let row := mkMedicalRow uid input
  match db.find? (fun m => m.user_id == uid) with
  | some _ => (.ok 200 row, db.map fun m => if m.user_id == uid then row else m)
  | none => (.ok 200 row, db ++ [row])

/-! ## Registration (src/controllers/auth.ts)

The identity gateway (Firebase) is an external collaborator: the outcomes of
its calls are inputs of the embedding, and the calls the handler issues are
recorded in order. -/

inductive FirebaseAction where
  | createUser (email : String)
  | deleteUser (uid : String)
  | createCustomToken (uid : String)
  deriving Repr, DecidableEq

structure RegisterInput where
  email : String
  password : String
  full_name : String
  phone_number : Option String
  profile_picture_url : Option String
  deriving Repr, DecidableEq

/-- registerUser after input validation: 409 when the email is already in the
local database; then create the identity account; if the local database write
(or the subsequent token mint, which shares its catch) fails after the
identity account was created, delete the just-created identity account and
report a 500 database error.  A failure of the cleanup delete itself is
swallowed: the delete is still issued and the 500 still returned. -/
def registerUser (input : RegisterInput) (emailExists : Bool)
    (fbCreate : Except String String) (dbCreate : Except String Unit)
    (tokenCreate : Except String String) : ApiResult String × List FirebaseAction :=
  if emailExists then (.conflict, [])
  else
    match fbCreate with
    | .error _ => (.badRequest, [.createUser input.email])
    | .ok uid =>
      match dbCreate with
      | .error _ => (.serverError, [.createUser input.email, .deleteUser uid])
      | .ok _ =>
        match tokenCreate with
        | .error _ =>
          (.serverError,
            [.createUser input.email, .createCustomToken uid, .deleteUser uid])
        | .ok tok =>
          (.ok 201 tok, [.createUser input.email, .createCustomToken uid])

/-! ## Lemmas: the primary-address invariant -/

theorem map_preserves_ids (f : Address → Address) (hf : ∀ a, (f a).id = a.id)
    (db : List Address) : (db.map f).map Address.id = db.map Address.id := by
  rw [List.map_map]
  exact List.map_congr_left fun a _ => hf a

theorem unsetUserPrimaries_ids (uid : String) (db : List Address) :
    (unsetUserPrimaries uid db).map Address.id = db.map Address.id := by
  apply map_preserves_ids
  intro a
  dsimp only
  split <;> rfl

theorem primaryCount_unset_self (uid : String) (db : List Address) :
    primaryCount uid (unsetUserPrimaries uid db) = 0 := by
  unfold primaryCount unsetUserPrimaries
  rw [List.countP_map]
  apply List.countP_eq_zero.mpr
  intro a _
  simp only [Function.comp_apply]
  by_cases h1 : a.user_id == uid <;> by_cases h2 : a.is_primary <;>
    simp [h1, h2]

theorem primaryCount_unset_ne {v uid : String} (h : v ≠ uid) (db : List Address) :
    primaryCount v (unsetUserPrimaries uid db) = primaryCount v db := by
  unfold primaryCount unsetUserPrimaries
  rw [List.countP_map]
  apply List.countP_congr
  intro a _
  simp only [Function.comp_apply]
  by_cases h1 : a.user_id = uid
  · by_cases h2 : a.is_primary <;> simp [h1, h2, Ne.symm h]
  · simp [h1]

theorem countP_map_on_target (p : Address → Bool) (f : Address → Address) (tid : String) :
    ∀ db : List Address, (db.map Address.id).Nodup →
      ∀ ex, ex ∈ db → ex.id = tid →
        (db.map fun a => if a.id == tid then f a else a).countP p
            + (if p ex then 1 else 0)
          = db.countP p + (if p (f ex) then 1 else 0) := by
  intro db
  induction db with
  | nil => intro _ ex hex; exact absurd hex (List.not_mem_nil ex)
  | cons b db ih =>
    intro hnd ex hex hid
    rw [List.map_cons, List.nodup_cons] at hnd
    obtain ⟨hbid, hnd'⟩ := hnd
    rcases List.mem_cons.mp hex with rfl | hex'
    · have hface : ∀ a ∈ db, (if a.id == tid then f a else a) = a := by
        intro a ha
        have hne : ¬(a.id == tid) := by
          simp only [beq_iff_eq]
          intro hc
          exact hbid (hid ▸ hc ▸ List.mem_map_of_mem Address.id ha)
        simp [hne]
      have hmapid : db.map (fun a => if a.id == tid then f a else a) = db := by
        rw [List.map_congr_left hface]
        exact List.map_id db
      rw [List.map_cons, if_pos (by simp [hid]), hmapid,
        List.countP_cons, List.countP_cons]
      omega
    · have hbne : ¬(b.id == tid) := by
        simp only [beq_iff_eq]
        intro hc
        exact hbid (hc ▸ hid ▸ List.mem_map_of_mem Address.id hex')
      rw [List.map_cons, if_neg (by simp at hbne ⊢; exact hbne),
        List.countP_cons, List.countP_cons]
      have := ih hnd' ex hex' hid
      omega

theorem findAddress_found {db : List Address} {uid id : String} {ex : Address}
    (h : findAddress db uid id = some ex) :
    ex ∈ db ∧ ex.id = id ∧ ex.user_id = uid := by
  unfold findAddress at h
  have hmem := List.mem_of_find?_eq_some h
  have hp := List.find?_some h
  simp only [Bool.and_eq_true, beq_iff_eq] at hp
  exact ⟨hmem, hp.1, hp.2⟩

theorem addressesWF_create (db : List Address) (uid : String)
    (input : CreateAddressInput) (newId : String) (now : Nat)
    (h : addressesWF db) : addressesWF (createAddress db uid input newId now).2 := by
  obtain ⟨hnd, hcnt⟩ := h
  unfold createAddress
  by_cases hex : db.any (fun a => a.id == newId) = true
  · rw [if_pos hex]
    exact ⟨hnd, hcnt⟩
  · have hfresh : newId ∉ db.map Address.id := by
      intro hc
      apply hex
      rw [List.any_eq_true]
      obtain ⟨a, ha, haid⟩ := List.mem_map.mp hc
      exact ⟨a, ha, by simp [haid]⟩
    rw [if_neg hex]
    set row : Address :=
      { id := newId, user_id := uid, street_address := input.street_address,
        city := input.city, region := input.region,
        postal_code := input.postal_code, country := input.country,
        address_type := input.address_type,
        is_primary := input.is_primary.getD false, created_at := now } with hrow
    by_cases hp : input.is_primary.getD false = true
    · rw [if_pos hp]
      constructor
      · dsimp only
        rw [List.map_append, List.nodup_append, unsetUserPrimaries_ids]
        refine ⟨hnd, by simp, ?_⟩
        intro x hx
        simp only [List.map_cons, List.map_nil, List.mem_singleton]
        intro hc
        exact hfresh (by simpa [hrow, hc] using hx)
      · intro v
        unfold primaryCount
        dsimp only
        rw [List.countP_append]
        by_cases hv : v = uid
        · subst hv
          have h0 := primaryCount_unset_self v db
          unfold primaryCount at h0
          simp [h0, hrow, hp]
        · have hsame := primaryCount_unset_ne hv db
          unfold primaryCount at hsame
          have h1 : (List.countP (fun a => a.user_id == v && a.is_primary) [row]) = 0 := by
            simp [hrow]
            intro hc
            exact absurd hc.symm hv
          rw [hsame, h1]
          simpa using hcnt v
    · rw [if_neg hp]
      constructor
      · dsimp only
        rw [List.map_append, List.nodup_append]
        refine ⟨hnd, by simp, ?_⟩
        intro x hx
        simp only [List.map_cons, List.map_nil, List.mem_singleton]
        intro hc
        exact hfresh (by simpa [hrow, hc] using hx)
      · intro v
        unfold primaryCount
        dsimp only
        rw [List.countP_append]
        have h1 : (List.countP (fun a => a.user_id == v && a.is_primary) [row]) = 0 := by
          simp [hrow, hp]
        rw [h1]
        simpa using hcnt v

theorem applyAddressUpdate_id (input : UpdateAddressInput) (a : Address) :
    (applyAddressUpdate input a).id = a.id := rfl

theorem applyAddressUpdate_user_id (input : UpdateAddressInput) (a : Address) :
    (applyAddressUpdate input a).user_id = a.user_id := rfl

theorem applyAddressUpdate_is_primary (input : UpdateAddressInput) (a : Address) :
    (applyAddressUpdate input a).is_primary = input.is_primary.getD a.is_primary := rfl

theorem addressesWF_update (db : List Address) (uid id : String)
    (input : UpdateAddressInput) (h : addressesWF db) :
    addressesWF (updateAddress db uid id input).2 := by
  obtain ⟨hnd, hcnt⟩ := h
  unfold updateAddress
  cases hfind : findAddress db uid id with
  | none => simp only [hfind]; exact ⟨hnd, hcnt⟩
  | some ex =>
    obtain ⟨hexmem, hexid, hexuid⟩ := findAddress_found hfind
    have huniq : ∀ a ∈ db, a.id = id → a = ex := fun a ha haid =>
      List.inj_on_of_nodup_map hnd ha hexmem (by rw [haid, hexid])
    simp only [hfind]
    by_cases hcond : (input.is_primary.getD false && !ex.is_primary) = true
    · rw [if_pos hcond]
      simp only [Bool.and_eq_true, Bool.not_eq_true'] at hcond
      obtain ⟨hget, hexprim⟩ := hcond
      set g1 : Address → Address := fun a =>
        if a.user_id == uid && a.is_primary && !(a.id == id) then
          { a with is_primary := false }
        else a with hg1
      have hg1id : ∀ a, (g1 a).id = a.id := by
        intro a
        show (if (a.user_id == uid && a.is_primary && !(a.id == id)) = true then
            { a with is_primary := false } else a).id = a.id
        split <;> rfl
      have hnd1 : ((db.map g1).map Address.id).Nodup := by
        rw [map_preserves_ids g1 hg1id]; exact hnd
      have hg1ex : g1 ex = ex := by
        show (if (ex.user_id == uid && ex.is_primary && !(ex.id == id)) = true then
            { ex with is_primary := false } else ex) = ex
        rw [if_neg (by simp [hexid])]
      have hexmem1 : ex ∈ db.map g1 := hg1ex ▸ List.mem_map_of_mem g1 hexmem
      have hcnt1 : ∀ v, List.countP (fun a => a.user_id == v && a.is_primary) (db.map g1)
          ≤ if v = uid then 0 else primaryCount v db := by
        intro v
        rw [List.countP_map]
        by_cases hv : v = uid
        · subst hv
          rw [if_pos rfl, Nat.le_zero, List.countP_eq_zero]
          intro a ha
          simp only [Function.comp_apply, hg1]
          by_cases hc : (a.user_id == v && a.is_primary && !(a.id == id)) = true
          · rw [if_pos hc]; simp
          · rw [if_neg hc]
            simp only [Bool.and_eq_true, Bool.not_eq_true', beq_iff_eq] at hc ⊢
            intro hfalse
            rcases hfalse with ⟨h1, h2⟩
            have haid : a.id = id := by
              by_contra hne
              exact hc ⟨⟨h1, h2⟩, by simpa using hne⟩
            have ha2 : a = ex := huniq a ha haid
            rw [ha2, hexprim] at h2
            exact Bool.false_ne_true h2
        · rw [if_neg hv]
          unfold primaryCount
          apply Nat.le_of_eq
          apply List.countP_congr
          intro a _
          simp only [Function.comp_apply, hg1]
          by_cases h1 : a.user_id = uid
          · by_cases h2 : a.is_primary <;> by_cases h3 : a.id = id <;>
              simp [h1, h2, h3, Ne.symm hv]
          · simp [h1]
      have hmain := fun (p : Address → Bool) =>
        countP_map_on_target p (applyAddressUpdate input) id (db.map g1) hnd1 ex hexmem1 hexid
      constructor
      · rw [map_preserves_ids _ (by
          intro a
          show (if (a.id == id) = true then applyAddressUpdate input a else a).id = a.id
          split
          · rw [applyAddressUpdate_id]
          · rfl), map_preserves_ids g1 hg1id]
        exact hnd
      · intro v
        unfold primaryCount
        have heq := hmain (fun a => a.user_id == v && a.is_primary)
        by_cases hv : v = uid
        · subst hv
          have hpex : (ex.user_id == v && ex.is_primary) = false := by
            simp [hexprim]
          have hpapp : ((applyAddressUpdate input ex).user_id == v
              && (applyAddressUpdate input ex).is_primary) = true := by
            rw [applyAddressUpdate_user_id, applyAddressUpdate_is_primary]
            cases hip : input.is_primary with
            | none => rw [hip] at hget; simp at hget
            | some b =>
              rw [hip] at hget
              simp only [Option.getD_some] at hget
              simp [hget, hexuid]
          have e1 : (if (ex.user_id == v && ex.is_primary) = true then 1 else 0) = 0 := by
            simp [hpex]
          have e2 : (if ((applyAddressUpdate input ex).user_id == v
              && (applyAddressUpdate input ex).is_primary) = true then 1 else 0) = 1 := by
            simp [hpapp]
          have h0 := hcnt1 v
          rw [if_pos rfl] at h0
          omega
        · have hpex : (ex.user_id == v && ex.is_primary) = false := by
            rw [hexuid]
            simp
            intro hc
            exact absurd hc.symm hv
          have hpapp : ((applyAddressUpdate input ex).user_id == v
              && (applyAddressUpdate input ex).is_primary) = false := by
            rw [applyAddressUpdate_user_id, hexuid]
            simp
            intro hc
            exact absurd hc.symm hv
          have e1 : (if (ex.user_id == v && ex.is_primary) = true then 1 else 0) = 0 := by
            simp [hpex]
          have e2 : (if ((applyAddressUpdate input ex).user_id == v
              && (applyAddressUpdate input ex).is_primary) = true then 1 else 0) = 0 := by
            simp [hpapp]
          have h0 := hcnt1 v
          rw [if_neg hv] at h0
          have h2 := hcnt v
          unfold primaryCount at h0 h2
          omega
    · rw [if_neg hcond]
      have hmain := fun (p : Address → Bool) =>
        countP_map_on_target p (applyAddressUpdate input) id db hnd ex hexmem hexid
      constructor
      · rw [map_preserves_ids _ (by
          intro a
          show (if (a.id == id) = true then applyAddressUpdate input a else a).id = a.id
          split
          · rw [applyAddressUpdate_id]
          · rfl)]
        exact hnd
      · intro v
        unfold primaryCount
        have heq := hmain (fun a => a.user_id == v && a.is_primary)
        have himp : ((applyAddressUpdate input ex).user_id == v
            && (applyAddressUpdate input ex).is_primary) = true →
            (ex.user_id == v && ex.is_primary) = true := by
          rw [applyAddressUpdate_user_id, applyAddressUpdate_is_primary]
          simp only [Bool.and_eq_true, beq_iff_eq]
          rintro ⟨h1, h2⟩
          refine ⟨h1, ?_⟩
          simp only [Bool.and_eq_true, Bool.not_eq_true'] at hcond
          cases hip : input.is_primary with
          | none => rw [hip] at h2; simpa using h2
          | some b =>
            rw [hip] at h2
            simp only [Option.getD_some] at h2
            subst h2
            by_contra hne
            exact hcond ⟨by simp [hip], by simpa using hne⟩
        have h2 := hcnt v
        unfold primaryCount at h2
        by_cases hpa : ((applyAddressUpdate input ex).user_id == v
            && (applyAddressUpdate input ex).is_primary) = true
        · have hpe := himp hpa
          have e1 : (if (ex.user_id == v && ex.is_primary) = true then 1 else 0) = 1 := by
            simp [hpe]
          have e2 : (if ((applyAddressUpdate input ex).user_id == v
              && (applyAddressUpdate input ex).is_primary) = true then 1 else 0) = 1 := by
            simp [hpa]
          omega
        · rw [Bool.not_eq_true] at hpa
          have e2 : (if ((applyAddressUpdate input ex).user_id == v
              && (applyAddressUpdate input ex).is_primary) = true then 1 else 0) = 0 := by
            simp [hpa]
          have e1 : (if (ex.user_id == v && ex.is_primary) = true then 1 else 0) ≤ 1 := by
            split <;> omega
          omega

theorem addressesWF_setPrimary (db : List Address) (uid id : String)
    (h : addressesWF db) : addressesWF (setPrimaryAddress db uid id).2 := by
  obtain ⟨hnd, hcnt⟩ := h
  unfold setPrimaryAddress
  cases hfind : findAddress db uid id with
  | none => simp only [hfind]; exact ⟨hnd, hcnt⟩
  | some ex =>
    obtain ⟨hexmem, hexid, hexuid⟩ := findAddress_found hfind
    simp only [hfind]
    have hgid : ∀ a : Address,
        ((if a.user_id == uid && a.is_primary then { a with is_primary := false } else a) :
          Address).id = a.id := by
      intro a; split <;> rfl
    have hnd1 : ((unsetUserPrimaries uid db).map Address.id).Nodup := by
      rw [unsetUserPrimaries_ids]; exact hnd
    set ex1 : Address :=
      if ex.user_id == uid && ex.is_primary then { ex with is_primary := false } else ex
      with hex1
    have hex1mem : ex1 ∈ unsetUserPrimaries uid db := by
      unfold unsetUserPrimaries
      exact hex1 ▸ List.mem_map_of_mem _ hexmem
    have hex1id : ex1.id = id := by rw [hex1, hgid]; exact hexid
    have hex1uid : ex1.user_id = uid := by
      rw [hex1]; split <;> simp [hexuid]
    have hex1prim : ex1.is_primary = false := by
      rw [hex1]
      by_cases hp : ex.is_primary
      · rw [if_pos (by simp [hexuid, hp])]
      · rw [if_neg (by simp [hp])]
        simpa using hp
    have hmain := fun (p : Address → Bool) =>
      countP_map_on_target p (fun a => { a with is_primary := true }) id
        (unsetUserPrimaries uid db) hnd1 ex1 hex1mem hex1id
    constructor
    · rw [map_preserves_ids _ (by
        intro a
        show (if (a.id == id) = true then { a with is_primary := true } else a).id = a.id
        split <;> rfl), unsetUserPrimaries_ids]
      exact hnd
    · intro v
      unfold primaryCount
      have heq := hmain (fun a => a.user_id == v && a.is_primary)
      have hpex1 : (ex1.user_id == v && ex1.is_primary) = false := by
        simp [hex1prim]
      have e1 : (if (ex1.user_id == v && ex1.is_primary) = true then 1 else 0) = 0 := by
        simp [hpex1]
      by_cases hv : v = uid
      · subst hv
        have hpset : (({ ex1 with is_primary := true } : Address).user_id == v
            && ({ ex1 with is_primary := true } : Address).is_primary) = true := by
          simp [hex1uid]
        have e2 : (if (({ ex1 with is_primary := true } : Address).user_id == v
            && ({ ex1 with is_primary := true } : Address).is_primary) = true
            then 1 else 0) = 1 := by
          simp [hpset]
        have h0 := primaryCount_unset_self v db
        unfold primaryCount at h0
        omega
      · have hpset : (({ ex1 with is_primary := true } : Address).user_id == v
            && ({ ex1 with is_primary := true } : Address).is_primary) = false := by
          show (ex1.user_id == v && true) = false
          rw [hex1uid]
          simp
          intro hc
          exact absurd hc.symm hv
        have e2 : (if (({ ex1 with is_primary := true } : Address).user_id == v
            && ({ ex1 with is_primary := true } : Address).is_primary) = true
            then 1 else 0) = 0 := by
          simp [hpset]
        have h0 := primaryCount_unset_ne hv db
        have h2 := hcnt v
        unfold primaryCount at h0 h2
        omega

theorem addressesWF_applyOp (db : List Address) (op : AddressOp)
    (h : addressesWF db) : addressesWF (applyAddressOp db op) := by
  cases op with
  | createOp uid input newId now => exact addressesWF_create db uid input newId now h
  | updateOp uid id input => exact addressesWF_update db uid id input h
  | setPrimaryOp uid id => exact addressesWF_setPrimary db uid id h

theorem addressesWF_foldl (ops : List AddressOp) :
    ∀ db : List Address, addressesWF db → addressesWF (ops.foldl applyAddressOp db) := by
  induction ops with
  | nil => intro db h; exact h
  | cons op ops ih =>
    intro db h
    exact ih _ (addressesWF_applyOp db op h)

theorem addressesWF_run (ops : List AddressOp) : addressesWF (runAddressOps ops) := by
  unfold runAddressOps
  apply addressesWF_foldl
  constructor
  · simp
  · intro uid; simp [primaryCount]

theorem find?_append_right {α : Type} (p : α → Bool) (l : List α) (x : α)
    (hl : ∀ a ∈ l, ¬p a = true) (hx : p x = true) : (l ++ [x]).find? p = some x := by
  induction l with
  | nil => simp [List.find?_cons_of_pos _ hx]
  | cons b l ih =>
    rw [List.cons_append, List.find?_cons_of_neg _ (hl b (by simp))]
    exact ih fun a ha => hl a (by simp [ha])

/-! ## Claim theorems -/

/-- C1: the claim states that check-digit verification returns true for
"19831267-3" and false for "19831267-4".  The code disagrees on the first
input: its expected check character is `remainder` as a digit only when
`remainder < 2` and the letter K otherwise (the standard `11 - remainder`
step of the modulo-11 algorithm is missing), so for the digits 19831267 the
weighted sum is 140, the remainder 8, the expected character K, and the
valid RUT "19831267-3" is rejected.  This theorem evaluates the code at
both inputs: verification returns false for both. -/
theorem C1_rut_check_digit_code_eval :
    validateRutWithCheckDigit "19831267-3" = false ∧
    validateRutWithCheckDigit "19831267-4" = false := by
  constructor <;> decide

/-- C2: over every sequential execution of the address operations (create,
update, explicit set-primary) from the empty store, after each operation at
most one address of each user is primary; and a create with is_primary =
true (given a fresh store id) first unsets is_primary on every existing
address of that user, then inserts the new row as primary, leaving exactly
one primary for that user. -/
theorem C2_primary_address_exclusivity :
    (∀ (ops : List AddressOp) (uid : String),
      primaryCount uid (runAddressOps ops) ≤ 1) ∧
    (∀ (db : List Address) (uid : String) (input : CreateAddressInput)
        (newId : String) (now : Nat),
      (∀ a ∈ db, a.id ≠ newId) → input.is_primary = some true →
      (createAddress db uid input newId now).2
          = unsetUserPrimaries uid db ++
            [{ id := newId, user_id := uid, street_address := input.street_address,
               city := input.city, region := input.region,
               postal_code := input.postal_code, country := input.country,
               address_type := input.address_type, is_primary := true,
               created_at := now }] ∧
      primaryCount uid (createAddress db uid input newId now).2 = 1) := by
  constructor
  · intro ops uid
    exact (addressesWF_run ops).2 uid
  · intro db uid input newId now hfresh hsome
    have hany : ¬(db.any (fun a => a.id == newId)) = true := by
      rw [List.any_eq_true]
      rintro ⟨a, ha, haid⟩
      exact hfresh a ha (by simpa using haid)
    unfold createAddress
    rw [if_neg hany, if_pos (by simp [hsome])]
    constructor
    · simp [hsome]
    · unfold primaryCount
      rw [List.countP_append]
      have h0 := primaryCount_unset_self uid db
      unfold primaryCount at h0
      rw [h0]
      simp [hsome]

/-- C2 witness: a user with a primary address a1 and a non-primary a2
creates a3 with is_primary = true; exactly one of the user's addresses is
primary afterwards. -/
theorem C2_primary_address_exclusivity_witness :
    primaryCount "u1" (createAddress
      [{ id := "a1", user_id := "u1", street_address := "s1", city := "c",
         region := "r", postal_code := none, country := "cl",
         address_type := "home", is_primary := true, created_at := 0 },
       { id := "a2", user_id := "u1", street_address := "s2", city := "c",
         region := "r", postal_code := none, country := "cl",
         address_type := "work", is_primary := false, created_at := 1 }]
      "u1"
      { street_address := "s3", city := "c", region := "r", postal_code := none,
        country := "cl", address_type := "beach", is_primary := some true }
      "a3" 2).2 = 1 :=
  (C2_primary_address_exclusivity.2 _ "u1" _ "a3" 2 (by decide) rfl).2

/-- C3: for the owned-resource get-by-id operations, a row owned by a
different user yields the very same 404 not-found outcome as an absent row:
the result equals `notFound`, and equals the result on the store with every
row of that id removed, so the caller cannot distinguish another user's
resource from an absent one. -/
theorem C3_ownership_isolation :
    (∀ (db : List Address) (uid id : String),
      (∀ a ∈ db, a.id = id → a.user_id ≠ uid) →
      getAddressById db uid id = ApiResult.notFound ∧
      getAddressById db uid id
        = getAddressById (db.filter fun a => !(a.id == id)) uid id) ∧
    (∀ (db : List HealthInsurance) (uid id : String),
      (∀ h ∈ db, h.id = id → h.user_id ≠ uid) →
      getHealthInsuranceById db uid id = ApiResult.notFound ∧
      getHealthInsuranceById db uid id
        = getHealthInsuranceById (db.filter fun h => !(h.id == id)) uid id) := by
  constructor
  · intro db uid id hother
    have h1 : findAddress db uid id = none := by
      unfold findAddress
      rw [List.find?_eq_none]
      intro a ha
      simp only [Bool.and_eq_true, beq_iff_eq, not_and]
      intro haid
      exact hother a ha haid
    have h2 : findAddress (db.filter fun a => !(a.id == id)) uid id = none := by
      unfold findAddress
      rw [List.find?_eq_none]
      intro a ha
      have := (List.mem_filter.mp ha).2
      simp only [Bool.not_eq_true', beq_eq_false_iff_ne] at this
      simp [this]
    unfold getAddressById
    rw [h1, h2]
    exact ⟨rfl, rfl⟩
  · intro db uid id hother
    have h1 : db.find? (fun h => h.id == id && h.user_id == uid) = none := by
      rw [List.find?_eq_none]
      intro a ha
      simp only [Bool.and_eq_true, beq_iff_eq, not_and]
      intro haid
      exact hother a ha haid
    have h2 : (db.filter fun h => !(h.id == id)).find?
        (fun h => h.id == id && h.user_id == uid) = none := by
      rw [List.find?_eq_none]
      intro a ha
      have := (List.mem_filter.mp ha).2
      simp only [Bool.not_eq_true', beq_eq_false_iff_ne] at this
      simp [this]
    unfold getHealthInsuranceById
    rw [h1, h2]
    exact ⟨rfl, rfl⟩

/-- C3 witness: a store holding address a1 and insurance h1 owned by u1,
queried with the credentials of u2, answers 404 for both. -/
theorem C3_ownership_isolation_witness :
    getAddressById
      [{ id := "a1", user_id := "u1", street_address := "s", city := "c",
         region := "r", postal_code := none, country := "cl",
         address_type := "home", is_primary := true, created_at := 0 }]
      "u2" "a1" = ApiResult.notFound ∧
    getHealthInsuranceById
      [{ id := "h1", user_id := "u1", primary_provider := "fonasa",
         provider_name := "Fonasa", plan_name := none, member_id := "m1",
         coverage_info := none, created_at := 0 }]
      "u2" "h1" = ApiResult.notFound :=
  ⟨(C3_ownership_isolation.1 _ "u2" "a1" (by decide)).1,
   (C3_ownership_isolation.2 _ "u2" "h1" (by decide)).1⟩

/-- C4 counterexample: the claim says every non-Address list is ordered
newest-created-first, but the validation-questions list orders created_at
ascending: with questions created at 0 and at 5, the endpoint returns the
older question first, which is not sorted newest-first. -/
theorem C4_list_order_counterexample :
    getUserValidationQuestions ["u1"]
      [{ id := "q1", user_id := "u1", question := "a", answer_hash := "h1",
         created_at := 0 },
       { id := "q2", user_id := "u1", question := "b", answer_hash := "h2",
         created_at := 5 }]
      "u1" none none
      = ApiResult.ok 200
          [{ id := "q1", user_id := none, question := "a", answer_hash := none,
             created_at := 0 },
           { id := "q2", user_id := none, question := "b", answer_hash := none,
             created_at := 5 }] ∧
    ¬ List.Sorted (fun a b : VQView => b.created_at ≤ a.created_at)
        [{ id := "q1", user_id := none, question := "a", answer_hash := none,
           created_at := 0 },
         { id := "q2", user_id := none, question := "b", answer_hash := none,
           created_at := 5 }] := by
  constructor
  · decide
  · decide

/-- C4 (amended): every owned-resource list operation returns exactly the
rows owned by the requesting user and an empty collection when there are
none; addresses are ordered primary-first then newest-created-first and
health insurance newest-created-first, but validation questions are ordered
oldest-created-first (created_at ascending), not newest-first. -/
theorem C4_list_operations :
    (∀ (db : List Address) (uid : String),
      List.Perm (getUserAddresses db uid) (db.filter (fun a => a.user_id == uid)) ∧
      List.Sorted addrBefore (getUserAddresses db uid) ∧
      ((∀ a ∈ db, a.user_id ≠ uid) → getUserAddresses db uid = [])) ∧
    (∀ (db : List HealthInsurance) (uid : String),
      List.Perm (getHealthInsurance db uid) (db.filter (fun h => h.user_id == uid)) ∧
      List.Sorted hiNewestFirst (getHealthInsurance db uid) ∧
      ((∀ h ∈ db, h.user_id ≠ uid) → getHealthInsurance db uid = [])) ∧
    (∀ (users : List String) (db : List ValidationQuestion) (uid : String)
        (apiKey cfgKey : Option String),
      uid ∈ users →
      ∃ qs : List ValidationQuestion,
        getUserValidationQuestions users db uid apiKey cfgKey
          = ApiResult.ok 200 (qs.map (projectVQ (isApiKeyAuth apiKey cfgKey))) ∧
        List.Perm qs (db.filter (fun q => q.user_id == uid)) ∧
        List.Sorted vqOldestFirst qs ∧
        ((∀ q ∈ db, q.user_id ≠ uid) → qs = [])) := by
  refine ⟨?_, ?_, ?_⟩
  · intro db uid
    refine ⟨List.perm_insertionSort _ _, List.sorted_insertionSort _ _, ?_⟩
    intro hempty
    unfold getUserAddresses
    have h0 : db.filter (fun a => a.user_id == uid) = [] := by
      rw [List.filter_eq_nil_iff]
      intro a ha
      simp [hempty a ha]
    rw [h0]
    rfl
  · intro db uid
    refine ⟨List.perm_insertionSort _ _, List.sorted_insertionSort _ _, ?_⟩
    intro hempty
    unfold getHealthInsurance
    have h0 : db.filter (fun h => h.user_id == uid) = [] := by
      rw [List.filter_eq_nil_iff]
      intro a ha
      simp [hempty a ha]
    rw [h0]
    rfl
  · intro users db uid apiKey cfgKey huid
    refine ⟨(db.filter fun q => q.user_id == uid).insertionSort vqOldestFirst, ?_, ?_, ?_, ?_⟩
    · unfold getUserValidationQuestions
      rw [if_neg (by simp [huid])]
    · exact List.perm_insertionSort _ _
    · exact List.sorted_insertionSort _ _
    · intro hempty
      have h0 : db.filter (fun q => q.user_id == uid) = [] := by
        rw [List.filter_eq_nil_iff]
        intro a ha
        simp [hempty a ha]
      rw [h0]
      rfl

/-- C4 witness: a user owning no addresses receives the empty list rather
than an error, and a user with no validation questions receives the empty
list from the validation-questions endpoint. -/
theorem C4_list_operations_witness :
    getUserAddresses
      [{ id := "a1", user_id := "u1", street_address := "s", city := "c",
         region := "r", postal_code := none, country := "cl",
         address_type := "home", is_primary := true, created_at := 0 }]
      "u9" = [] ∧
    getUserValidationQuestions ["u1"] [] "u1" none none = ApiResult.ok 200 [] := by
  constructor
  · exact (C4_list_operations.1 _ "u9").2.2 (by decide)
  · obtain ⟨qs, h1, _, _, h4⟩ :=
      C4_list_operations.2.2 ["u1"] [] "u1" none none (by decide)
    have hqs : qs = [] := h4 (by simp)
    rw [hqs] at h1
    simpa using h1

/-- C5 counterexample: the claim says every emergency event's status is
always one of active, resolved, cancelled.  But the update handler writes
any truthy string: creating an event (status active) and then updating it
with status "compromised" leaves an event whose status is outside the
enumeration. -/
theorem C5_status_counterexample :
    ∃ e ∈ (updateEmergencyEvent
        (createEmergencyEvent ["u1"] [] "u1"
          { event_type := "medical", description := "chest pain",
            location := "Main St", audio_recording_url := none } "e1" 0).2
        "u1" "e1"
        { event_type := none, description := none, location := none,
          audio_recording_url := none, status := some "compromised" }).2,
      e.status ≠ "active" ∧ e.status ≠ "resolved" ∧ e.status ≠ "cancelled" := by
  decide

/-- C5 (amended): an emergency event's status is "active" at creation (both
the JSON-body path, which sets it explicitly, and the column default), and
an update writes whatever truthy string the caller supplies as status, with
no transition constraint and no membership constraint: within the enumerated
values any status can be set from any other, but values outside the
enumeration are accepted as well. -/
theorem C5_event_status :
    (∀ (users : List String) (db : List EmergencyEvent) (targetUserId : String)
        (input : CreateEventInput) (newId : String) (now : Nat)
        (row : EmergencyEvent) (db2 : List EmergencyEvent),
      createEmergencyEvent users db targetUserId input newId now
          = (ApiResult.ok 201 row, db2) →
      row.status = "active" ∧ db2 = db ++ [row]) ∧
    (∀ (db : List EmergencyEvent) (uid id : String) (input : UpdateEventInput)
        (ex : EmergencyEvent),
      db.find? (fun e => e.id == id && e.user_id == uid) = some ex →
      (updateEmergencyEvent db uid id input).1
          = ApiResult.ok 200 (applyEventUpdate input ex) ∧
      (applyEventUpdate input ex).status
          = (match input.status with
             | some s => if s == "" then ex.status else s
             | none => ex.status)) := by
  constructor
  · intro users db targetUserId input newId now row db2 h
    unfold createEmergencyEvent at h
    by_cases h1 : (input.event_type == "" || input.description == ""
        || input.location == "") = true
    · rw [if_pos h1, Prod.mk.injEq] at h
      exact ApiResult.noConfusion h.1
    · rw [if_neg h1] at h
      by_cases h2 : (!(users.contains targetUserId)) = true
      · rw [if_pos h2, Prod.mk.injEq] at h
        exact ApiResult.noConfusion h.1
      · rw [if_neg h2, Prod.mk.injEq] at h
        obtain ⟨h3, h4⟩ := h
        rw [ApiResult.ok.injEq] at h3
        obtain ⟨-, h5⟩ := h3
        constructor
        · rw [← h5]
        · rw [← h4, h5]
  · intro db uid id input ex hfind
    unfold updateEmergencyEvent
    rw [hfind]
    exact ⟨rfl, rfl⟩

/-- C5 witness: a concrete create yields status "active", and a concrete
update with status "resolved" stores "resolved". -/
theorem C5_event_status_witness :
    ({ id := "e1", user_id := "u1", event_type := "medical",
       description := "chest pain", location := "Main St",
       audio_recording_url := none, status := "active", created_at := 0 }
      : EmergencyEvent).status = "active" ∧
    (applyEventUpdate
      { event_type := none, description := none, location := none,
        audio_recording_url := none, status := some "resolved" }
      { id := "e1", user_id := "u1", event_type := "medical",
        description := "chest pain", location := "Main St",
        audio_recording_url := none, status := "active", created_at := 0 }).status
      = "resolved" :=
  ⟨(C5_event_status.1 ["u1"] [] "u1"
      { event_type := "medical", description := "chest pain",
        location := "Main St", audio_recording_url := none } "e1" 0
      { id := "e1", user_id := "u1", event_type := "medical",
        description := "chest pain", location := "Main St",
        audio_recording_url := none, status := "active", created_at := 0 }
      [{ id := "e1", user_id := "u1", event_type := "medical",
         description := "chest pain", location := "Main St",
         audio_recording_url := none, status := "active", created_at := 0 }]
      (by decide)).1,
   ((C5_event_status.2
      [{ id := "e1", user_id := "u1", event_type := "medical",
         description := "chest pain", location := "Main St",
         audio_recording_url := none, status := "active", created_at := 0 }]
      "u1" "e1"
      { event_type := none, description := none, location := none,
        audio_recording_url := none, status := some "resolved" }
      { id := "e1", user_id := "u1", event_type := "medical",
        description := "chest pain", location := "Main St",
        audio_recording_url := none, status := "active", created_at := 0 }
      (by decide)).2).trans rfl⟩

/-- C6: with no existing medical-info row for the user, the first create
responds 201 with the new row and the second responds 409 leaving the store
(and hence the first row) unchanged; the upsert variant responds 200 on both
calls and after the second call the user's row holds the second call's
values. -/
theorem C6_medical_info_singleton :
    ∀ (db : List MedicalInfo) (uid : String) (p1 p2 : MedicalInfoInput),
      db.find? (fun m => m.user_id == uid) = none →
      (createMedicalInfo db uid p1).1 = ApiResult.ok 201 (mkMedicalRow uid p1) ∧
      createMedicalInfo (createMedicalInfo db uid p1).2 uid p2
        = (ApiResult.conflict, (createMedicalInfo db uid p1).2) ∧
      (upsertMedicalInfo db uid p1).1 = ApiResult.ok 200 (mkMedicalRow uid p1) ∧
      (upsertMedicalInfo (upsertMedicalInfo db uid p1).2 uid p2).1
        = ApiResult.ok 200 (mkMedicalRow uid p2) ∧
      ((upsertMedicalInfo (upsertMedicalInfo db uid p1).2 uid p2).2).find?
          (fun m => m.user_id == uid) = some (mkMedicalRow uid p2) := by
  intro db uid p1 p2 hnone
  have hall : ∀ m ∈ db, ¬(m.user_id == uid) = true := List.find?_eq_none.mp hnone
  have hfind1 : (db ++ [mkMedicalRow uid p1]).find? (fun m => m.user_id == uid)
      = some (mkMedicalRow uid p1) :=
    find?_append_right _ db _ hall (by simp [mkMedicalRow])
  have hc1 : createMedicalInfo db uid p1
      = (ApiResult.ok 201 (mkMedicalRow uid p1), db ++ [mkMedicalRow uid p1]) := by
    unfold createMedicalInfo
    rw [hnone]
  have hc2 : createMedicalInfo (db ++ [mkMedicalRow uid p1]) uid p2
      = (ApiResult.conflict, db ++ [mkMedicalRow uid p1]) := by
    unfold createMedicalInfo
    rw [hfind1]
  have hu1 : upsertMedicalInfo db uid p1
      = (ApiResult.ok 200 (mkMedicalRow uid p1), db ++ [mkMedicalRow uid p1]) := by
    unfold upsertMedicalInfo
    rw [hnone]
  have hmap : (db ++ [mkMedicalRow uid p1]).map
      (fun m => if m.user_id == uid then mkMedicalRow uid p2 else m)
      = db ++ [mkMedicalRow uid p2] := by
    rw [List.map_append]
    congr 1
    · have : ∀ m ∈ db,
          (if m.user_id == uid then mkMedicalRow uid p2 else m) = m := by
        intro m hm
        rw [if_neg (hall m hm)]
      rw [List.map_congr_left this]
      exact List.map_id db
    · simp [mkMedicalRow]
  have hu2 : upsertMedicalInfo (db ++ [mkMedicalRow uid p1]) uid p2
      = (ApiResult.ok 200 (mkMedicalRow uid p2), db ++ [mkMedicalRow uid p2]) := by
    unfold upsertMedicalInfo
    rw [hfind1]
    dsimp only
    rw [hmap]
  have hfind2 : (db ++ [mkMedicalRow uid p2]).find? (fun m => m.user_id == uid)
      = some (mkMedicalRow uid p2) :=
    find?_append_right _ db _ hall (by simp [mkMedicalRow])
  refine ⟨by rw [hc1], ?_, by rw [hu1], ?_, ?_⟩
  · rw [hc1]
    exact hc2
  · rw [hu1]
    rw [hu2]
  · rw [hu1]
    rw [hu2]
    exact hfind2

/-- C6 witness: starting from the empty store, the second upsert for u1
responds 200 with the second body's values. -/
theorem C6_medical_info_singleton_witness :
    ([] : List MedicalInfo).find? (fun m => m.user_id == "u1") = none ∧
    (upsertMedicalInfo (upsertMedicalInfo [] "u1"
        { medical_conditions := none, allergies := none, medications := none,
          blood_type := some "O+", emergency_notes := none,
          voice_password_hash := none }).2 "u1"
        { medical_conditions := some ["asthma"], allergies := none,
          medications := none, blood_type := some "AB-", emergency_notes := none,
          voice_password_hash := none }).1
      = ApiResult.ok 200 (mkMedicalRow "u1"
          { medical_conditions := some ["asthma"], allergies := none,
            medications := none, blood_type := some "AB-", emergency_notes := none,
            voice_password_hash := none }) :=
  ⟨rfl, (C6_medical_info_singleton [] "u1"
      { medical_conditions := none, allergies := none, medications := none,
        blood_type := some "O+", emergency_notes := none,
        voice_password_hash := none }
      { medical_conditions := some ["asthma"], allergies := none,
        medications := none, blood_type := some "AB-", emergency_notes := none,
        voice_password_hash := none } rfl).2.2.2.1⟩

/-- C7: for each update operation on a row the caller owns, the updated row
is returned and placed in the store, and every field omitted from the
request body keeps its previous stored value — omitted fields are never
nulled, so only supplied fields change. -/
theorem C7_update_frame :
    (∀ (db : List Address) (uid id : String) (input : UpdateAddressInput)
        (ex : Address),
      findAddress db uid id = some ex →
      (updateAddress db uid id input).1
          = ApiResult.ok 200 (applyAddressUpdate input ex) ∧
      applyAddressUpdate input ex ∈ (updateAddress db uid id input).2 ∧
      (input.street_address = none →
        (applyAddressUpdate input ex).street_address = ex.street_address) ∧
      (input.city = none → (applyAddressUpdate input ex).city = ex.city) ∧
      (input.region = none → (applyAddressUpdate input ex).region = ex.region) ∧
      (input.postal_code = none →
        (applyAddressUpdate input ex).postal_code = ex.postal_code) ∧
      (input.country = none → (applyAddressUpdate input ex).country = ex.country) ∧
      (input.address_type = none →
        (applyAddressUpdate input ex).address_type = ex.address_type) ∧
      (input.is_primary = none →
        (applyAddressUpdate input ex).is_primary = ex.is_primary)) ∧
    (∀ (db : List HealthInsurance) (uid id : String) (input : UpdateHIInput)
        (ex : HealthInsurance),
      db.find? (fun h => h.id == id && h.user_id == uid) = some ex →
      (updateHealthInsurance db uid id input).1
          = ApiResult.ok 200 (applyHIUpdate input ex) ∧
      applyHIUpdate input ex ∈ (updateHealthInsurance db uid id input).2 ∧
      (input.primary_provider = none →
        (applyHIUpdate input ex).primary_provider = ex.primary_provider) ∧
      (input.provider_name = none →
        (applyHIUpdate input ex).provider_name = ex.provider_name) ∧
      (input.plan_name = none → (applyHIUpdate input ex).plan_name = ex.plan_name) ∧
      (input.member_id = none → (applyHIUpdate input ex).member_id = ex.member_id) ∧
      (input.coverage_info = none →
        (applyHIUpdate input ex).coverage_info = ex.coverage_info)) ∧
    (∀ (db : List EmergencyEvent) (uid id : String) (input : UpdateEventInput)
        (ex : EmergencyEvent),
      db.find? (fun e => e.id == id && e.user_id == uid) = some ex →
      (updateEmergencyEvent db uid id input).1
          = ApiResult.ok 200 (applyEventUpdate input ex) ∧
      applyEventUpdate input ex ∈ (updateEmergencyEvent db uid id input).2 ∧
      (input.event_type = none →
        (applyEventUpdate input ex).event_type = ex.event_type) ∧
      (input.description = none →
        (applyEventUpdate input ex).description = ex.description) ∧
      (input.location = none → (applyEventUpdate input ex).location = ex.location) ∧
      (input.audio_recording_url = none →
        (applyEventUpdate input ex).audio_recording_url = ex.audio_recording_url) ∧
      (input.status = none → (applyEventUpdate input ex).status = ex.status)) := by
  refine ⟨?_, ?_, ?_⟩
  · intro db uid id input ex hfind
    obtain ⟨hexmem, hexid, hexuid⟩ := findAddress_found hfind
    refine ⟨?_, ?_, fun h => by simp [applyAddressUpdate, h],
      fun h => by simp [applyAddressUpdate, h], fun h => by simp [applyAddressUpdate, h],
      fun h => by simp [applyAddressUpdate, h], fun h => by simp [applyAddressUpdate, h],
      fun h => by simp [applyAddressUpdate, h], fun h => by simp [applyAddressUpdate, h]⟩
    · unfold updateAddress
      rw [hfind]
    · unfold updateAddress
      rw [hfind]
      have hex1 : ex ∈ (if (input.is_primary.getD false && !ex.is_primary) = true then
          db.map (fun a =>
            if a.user_id == uid && a.is_primary && !(a.id == id) then
              { a with is_primary := false }
            else a)
          else db) := by
        split
        · have hgex : (fun a =>
              if a.user_id == uid && a.is_primary && !(a.id == id) then
                { a with is_primary := false }
              else a) ex = ex := by
            show (if (ex.user_id == uid && ex.is_primary && !(ex.id == id)) = true then
                { ex with is_primary := false } else ex) = ex
            rw [if_neg (by simp [hexid])]
          exact hgex ▸ List.mem_map_of_mem _ hexmem
        · exact hexmem
      have hgex2 : (fun a => if a.id == id then applyAddressUpdate input a else a) ex
          = applyAddressUpdate input ex := by
        show (if (ex.id == id) = true then applyAddressUpdate input ex else ex)
            = applyAddressUpdate input ex
        rw [if_pos (by simp [hexid])]
      exact hgex2 ▸ List.mem_map_of_mem _ hex1
  · intro db uid id input ex hfind
    have hexmem := List.mem_of_find?_eq_some hfind
    have hp := List.find?_some hfind
    simp only [Bool.and_eq_true, beq_iff_eq] at hp
    refine ⟨?_, ?_, fun h => by simp [applyHIUpdate, h],
      fun h => by simp [applyHIUpdate, h], fun h => by simp [applyHIUpdate, h],
      fun h => by simp [applyHIUpdate, h], fun h => by simp [applyHIUpdate, h]⟩
    · unfold updateHealthInsurance
      rw [hfind]
    · unfold updateHealthInsurance
      rw [hfind]
      have hgex : (fun h => if h.id == id then applyHIUpdate input h else h) ex
          = applyHIUpdate input ex := by
        show (if (ex.id == id) = true then applyHIUpdate input ex else ex)
            = applyHIUpdate input ex
        rw [if_pos (by simp [hp.1])]
      exact hgex ▸ List.mem_map_of_mem _ hexmem
  · intro db uid id input ex hfind
    have hexmem := List.mem_of_find?_eq_some hfind
    have hp := List.find?_some hfind
    simp only [Bool.and_eq_true, beq_iff_eq] at hp
    refine ⟨?_, ?_, fun h => by simp [applyEventUpdate, jsTruthySet, h],
      fun h => by simp [applyEventUpdate, jsTruthySet, h],
      fun h => by simp [applyEventUpdate, jsTruthySet, h],
      fun h => by simp [applyEventUpdate, h],
      fun h => by simp [applyEventUpdate, jsTruthySet, h]⟩
    · unfold updateEmergencyEvent
      rw [hfind]
    · unfold updateEmergencyEvent
      rw [hfind]
      have hgex : (fun e => if e.id == id then applyEventUpdate input e else e) ex
          = applyEventUpdate input ex := by
        show (if (ex.id == id) = true then applyEventUpdate input ex else ex)
            = applyEventUpdate input ex
        rw [if_pos (by simp [hp.1])]
      exact hgex ▸ List.mem_map_of_mem _ hexmem

/-- C7 witness: concrete updates supplying only one field leave an omitted
field of each resource unchanged. -/
theorem C7_update_frame_witness :
    (applyAddressUpdate
      { street_address := none, city := some "Valparaiso", region := none,
        postal_code := none, country := none, address_type := none,
        is_primary := none }
      { id := "a1", user_id := "u1", street_address := "Main 1", city := "Stgo",
        region := "RM", postal_code := none, country := "cl",
        address_type := "home", is_primary := true,
        created_at := 0 }).street_address = "Main 1" ∧
    (applyHIUpdate
      { primary_provider := none, provider_name := none, plan_name := none,
        member_id := some "m2", coverage_info := none }
      { id := "h1", user_id := "u1", primary_provider := "fonasa",
        provider_name := "Fonasa", plan_name := some "gold", member_id := "m1",
        coverage_info := none, created_at := 0 }).plan_name = some "gold" ∧
    (applyEventUpdate
      { event_type := none, description := none, location := none,
        audio_recording_url := none, status := some "resolved" }
      { id := "e1", user_id := "u1", event_type := "medical",
        description := "chest pain", location := "Main St",
        audio_recording_url := none, status := "active",
        created_at := 0 }).description = "chest pain" :=
  ⟨(C7_update_frame.1
      [{ id := "a1", user_id := "u1", street_address := "Main 1", city := "Stgo",
         region := "RM", postal_code := none, country := "cl",
         address_type := "home", is_primary := true, created_at := 0 }]
      "u1" "a1"
      { street_address := none, city := some "Valparaiso", region := none,
        postal_code := none, country := none, address_type := none,
        is_primary := none }
      { id := "a1", user_id := "u1", street_address := "Main 1", city := "Stgo",
        region := "RM", postal_code := none, country := "cl",
        address_type := "home", is_primary := true, created_at := 0 }
      (by decide)).2.2.1 rfl,
   (C7_update_frame.2.1
      [{ id := "h1", user_id := "u1", primary_provider := "fonasa",
         provider_name := "Fonasa", plan_name := some "gold", member_id := "m1",
         coverage_info := none, created_at := 0 }]
      "u1" "h1"
      { primary_provider := none, provider_name := none, plan_name := none,
        member_id := some "m2", coverage_info := none }
      { id := "h1", user_id := "u1", primary_provider := "fonasa",
        provider_name := "Fonasa", plan_name := some "gold", member_id := "m1",
        coverage_info := none, created_at := 0 }
      (by decide)).2.2.2.2.1 rfl,
   (C7_update_frame.2.2
      [{ id := "e1", user_id := "u1", event_type := "medical",
         description := "chest pain", location := "Main St",
         audio_recording_url := none, status := "active", created_at := 0 }]
      "u1" "e1"
      { event_type := none, description := none, location := none,
        audio_recording_url := none, status := some "resolved" }
      { id := "e1", user_id := "u1", event_type := "medical",
        description := "chest pain", location := "Main St",
        audio_recording_url := none, status := "active", created_at := 0 }
      (by decide)).2.2.2.1 rfl⟩

/-- C8: with the hash library satisfying its contract (compare succeeds
exactly on the hash of the candidate, and hashing is collision-free on the
inputs in play), verifying a question created with answer A against
candidate B returns verified = true iff the lowercased-trimmed B equals the
lowercased-trimmed A; a question id that does not exist yields not-found;
and the verify response ranges over four fixed shapes that never carry the
stored answer or hash. -/
theorem C8_validation_answer_verification :
    ∀ (hash : String → String) (bcompare : String → String → Bool),
      (∀ x h, bcompare x h = true ↔ hash x = h) →
      Function.Injective hash →
      ∀ (users : List String) (db : List ValidationQuestion) (uid : String)
        (question A newId : String) (now : Nat),
        question ≠ "" → A ≠ "" → uid ∈ users → (∀ q ∈ db, q.id ≠ newId) →
        (∀ B : String, B ≠ "" →
          verifyValidationAnswer bcompare
              (createValidationQuestion hash users db uid question A newId now).2
              newId B
            = VerifyResult.ok (jsLowerTrim B == jsLowerTrim A)
                (if jsLowerTrim B == jsLowerTrim A then "Answer is correct"
                 else "Answer is incorrect")) ∧
        (∀ qid B : String, B ≠ "" →
          (∀ q ∈ (createValidationQuestion hash users db uid question A newId now).2,
            q.id ≠ qid) →
          verifyValidationAnswer bcompare
              (createValidationQuestion hash users db uid question A newId now).2
              qid B
            = VerifyResult.notFound) ∧
        (∀ (db0 : List ValidationQuestion) (qid B : String),
          verifyValidationAnswer bcompare db0 qid B = VerifyResult.badRequest ∨
          verifyValidationAnswer bcompare db0 qid B = VerifyResult.notFound ∨
          verifyValidationAnswer bcompare db0 qid B
              = VerifyResult.ok true "Answer is correct" ∨
          verifyValidationAnswer bcompare db0 qid B
              = VerifyResult.ok false "Answer is incorrect") := by
  intro hash bcompare hcontract hinj users db uid question A newId now hq hA huid hfresh
  set row : ValidationQuestion :=
    { id := newId, user_id := uid, question := question,
      answer_hash := hash (jsLowerTrim A), created_at := now } with hrowdef
  have hcreate : (createValidationQuestion hash users db uid question A newId now).2
      = db ++ [row] := by
    unfold createValidationQuestion
    rw [if_neg (by simp [hq, hA]), if_neg (by simp [huid])]
  refine ⟨?_, ?_, ?_⟩
  · intro B hB
    rw [hcreate]
    unfold verifyValidationAnswer
    rw [if_neg (by simp [hB])]
    have hfindrow : (db ++ [row]).find? (fun q => q.id == newId) = some row :=
      find?_append_right _ db _ (fun q hq2 => by simp [hfresh q hq2]) (by simp [hrowdef])
    rw [hfindrow]
    dsimp only
    have hval : bcompare (jsLowerTrim B) row.answer_hash
        = (jsLowerTrim B == jsLowerTrim A) := by
      rw [hrowdef]
      by_cases heq : jsLowerTrim B = jsLowerTrim A
      · rw [heq, (hcontract _ _).mpr rfl]
        simp
      · have h1 : bcompare (jsLowerTrim B) (hash (jsLowerTrim A)) = false :=
          Bool.eq_false_iff.mpr fun hc => heq (hinj ((hcontract _ _).mp hc))
        rw [h1]
        have h2 : (jsLowerTrim B == jsLowerTrim A) = false := by simp [heq]
        rw [h2]
    rw [hval]
  · intro qid B hB hnoid
    rw [hcreate] at hnoid ⊢
    unfold verifyValidationAnswer
    rw [if_neg (by simp [hB])]
    have hfn : (db ++ [row]).find? (fun q => q.id == qid) = none := by
      rw [List.find?_eq_none]
      intro q hq2
      simp [hnoid q hq2]
    rw [hfn]
  · intro db0 qid B
    unfold verifyValidationAnswer
    by_cases hB : (B == "") = true
    · rw [if_pos hB]
      exact Or.inl rfl
    · rw [if_neg hB]
      cases hf : db0.find? (fun q => q.id == qid) with
      | none => exact Or.inr (Or.inl rfl)
      | some q =>
        dsimp only
        by_cases hc : bcompare (jsLowerTrim B) q.answer_hash = true
        · refine Or.inr (Or.inr (Or.inl ?_))
          rw [hc]
          simp
        · refine Or.inr (Or.inr (Or.inr ?_))
          rw [Bool.not_eq_true] at hc
          rw [hc]
          simp

/-- C8 witness: with the identity function standing in for the hash library
(it satisfies the contract), the answer "Blue " verifies against the
candidate "  blue" (both normalise to "blue"). -/
theorem C8_validation_answer_verification_witness :
    verifyValidationAnswer (fun x h => x == h)
        (createValidationQuestion (fun s => s) ["u1"] [] "u1"
          "Favorite color?" "Blue " "q1" 0).2
        "q1" "  blue"
      = VerifyResult.ok true "Answer is correct" :=
  ((C8_validation_answer_verification (fun s => s) (fun x h => x == h)
      (fun x h => by simp) (fun _ _ hab => hab) ["u1"] [] "u1"
      "Favorite color?" "Blue " "q1" 0
      (by decide) (by decide) (by decide) (by decide)).1 "  blue"
      (by decide)).trans (by decide)

/-- C9: in registration, when the identity account was created (the gateway
returned a fresh uid) and the local database write then fails, the handler
responds with the 500 database error — not success — and issues a delete of
the just-created identity account. -/
theorem C9_register_compensation :
    ∀ (input : RegisterInput) (uid e : String) (tokenCreate : Except String String),
      (registerUser input false (Except.ok uid) (Except.error e) tokenCreate).1
        = ApiResult.serverError ∧
      FirebaseAction.deleteUser uid
        ∈ (registerUser input false (Except.ok uid) (Except.error e) tokenCreate).2 := by
  intro input uid e tokenCreate
  unfold registerUser
  exact ⟨rfl, by simp⟩

/-- C10: when a service key is configured (a non-empty string), the
validation-questions list endpoint returns rows carrying user_id and
answer_hash exactly when the request's api-key header equals the configured
key; every other caller receives rows with only id, question and timestamps;
and under the service key every stored row's hash is disclosed. -/
theorem C10_validation_list_disclosure :
    ∀ (users : List String) (db : List ValidationQuestion) (uid : String)
      (apiKey : Option String) (k : String),
      k ≠ "" → uid ∈ users →
      ∃ views : List VQView,
        getUserValidationQuestions users db uid apiKey (some k)
          = ApiResult.ok 200 views ∧
        (∀ v ∈ views, (v.user_id.isSome ∧ v.answer_hash.isSome) ↔ apiKey = some k) ∧
        (apiKey ≠ some k → ∀ v ∈ views, v.user_id = none ∧ v.answer_hash = none) ∧
        (apiKey = some k → ∀ q ∈ db, q.user_id = uid →
          ∃ v ∈ views, v.id = q.id ∧ v.user_id = some q.user_id ∧
            v.answer_hash = some q.answer_hash) := by
  intro users db uid apiKey k hk huid
  have hfull : isApiKeyAuth apiKey (some k) = true ↔ apiKey = some k := by
    cases apiKey with
    | none => simp [isApiKeyAuth]
    | some a =>
      unfold isApiKeyAuth
      rw [Bool.and_eq_true, Bool.and_eq_true]
      constructor
      · intro hall
        simpa using hall.2
      · intro hsome
        have hak : a = k := by simpa using hsome
        subst hak
        exact ⟨⟨by simp [hk], by simp [hk]⟩, by simp⟩
  refine ⟨((db.filter fun q => q.user_id == uid).insertionSort vqOldestFirst).map
      (projectVQ (isApiKeyAuth apiKey (some k))), ?_, ?_, ?_, ?_⟩
  · unfold getUserValidationQuestions
    rw [if_neg (by simp [huid])]
  · intro v hv
    obtain ⟨q, _, hpq⟩ := List.mem_map.mp hv
    rw [← hpq]
    unfold projectVQ
    by_cases hc : isApiKeyAuth apiKey (some k) = true
    · rw [if_pos hc]
      simp [hfull.mp hc]
    · rw [if_neg hc]
      constructor
      · intro hand
        have h1 := hand.1
        simp at h1
      · intro h
        exact absurd (hfull.mpr h) hc
  · intro hne v hv
    obtain ⟨q, _, hpq⟩ := List.mem_map.mp hv
    rw [← hpq]
    unfold projectVQ
    rw [if_neg (fun hc => hne (hfull.mp hc))]
    exact ⟨rfl, rfl⟩
  · intro heq q hq hquid
    have hc : isApiKeyAuth apiKey (some k) = true := hfull.mpr heq
    have hqmem : q ∈ (db.filter fun q => q.user_id == uid).insertionSort vqOldestFirst := by
      rw [List.mem_insertionSort]
      exact List.mem_filter.mpr ⟨hq, by simp [hquid]⟩
    refine ⟨projectVQ (isApiKeyAuth apiKey (some k)) q, List.mem_map_of_mem _ hqmem, ?_⟩
    unfold projectVQ
    rw [if_pos hc]
    exact ⟨rfl, rfl, rfl⟩

/-- C10 witness: with configured key "sk", a caller presenting api-key "sk"
for user u1 receives views satisfying the disclosure property. -/
theorem C10_validation_list_disclosure_witness :
    "sk" ≠ "" ∧ "u1" ∈ ["u1"] ∧
    (∃ views : List VQView,
      getUserValidationQuestions ["u1"]
          [{ id := "q1", user_id := "u1", question := "color",
             answer_hash := "HH", created_at := 0 }]
          "u1" (some "sk") (some "sk")
        = ApiResult.ok 200 views ∧
      (∀ v ∈ views, (v.user_id.isSome ∧ v.answer_hash.isSome) ↔ some "sk" = some "sk") ∧
      (some "sk" ≠ some "sk" → ∀ v ∈ views, v.user_id = none ∧ v.answer_hash = none) ∧
      (some "sk" = some "sk" →
        ∀ q ∈ [({ id := "q1", user_id := "u1", question := "color",
                  answer_hash := "HH", created_at := 0 } : ValidationQuestion)],
          q.user_id = "u1" →
          ∃ v ∈ views, v.id = q.id ∧ v.user_id = some q.user_id ∧
            v.answer_hash = some q.answer_hash)) :=
  ⟨by decide, by decide,
    C10_validation_list_disclosure ["u1"]
      [{ id := "q1", user_id := "u1", question := "color",
         answer_hash := "HH", created_at := 0 }]
      "u1" (some "sk") "sk" (by decide) (by decide)⟩

end Hack911
